import Mathlib

/-!
# Verification of the OData1C client core

A shallow embedding, in Lean 4, of the two core components of the OData1C
Python client library:

* the filter-expression builder `Q` (`src/odata/query.py`): an expression
  tree with logical composition, negation and rendering to an OData
  `$filter` string;
* the metadata catalog `MetadataManager`
  (`OData1C/odata/metadata_manager.py`): a lazily loaded, explicitly
  invalidated cache of entity sets, entity types and (recursively
  expanded) property lists.

Python values that can appear in lookups are modelled by the inductive
`PyVal`; Python exceptions (`ValueError`, `TypeError`) become an explicit
`Except` result.  The network transport and the XML parser used by the
metadata catalog are external collaborators of the code and are modelled
by an oracle value describing the outcome of one fetch-and-parse.
-/

namespace OData

/-! ### Executable Python string primitives

Lean's own `String.splitOn`, `String.replace`, … are compiled functions
whose definitions do not reduce inside the kernel, so the embedding uses
the following structural re-implementations of the Python `str` methods
over the character list of a `String`.  Each mirrors the CPython
semantics of the method it names. -/

/-- Recursion core of `str.split(sep)` for a non-empty `sep`: scans left
to right, cutting at each non-overlapping occurrence of `sep`.  `fuel`
only makes the recursion structural; `fuel = s.length` always suffices
because every step consumes at least one character. -/
def pySplitAux (sep : List Char) : Nat → List Char → List (List Char)
  | 0, s => [s]
  | fuel + 1, s =>
    match s with
    | [] => [[]]
    | c :: rest =>
      if sep.isPrefixOf (c :: rest) then
        [] :: pySplitAux sep fuel ((c :: rest).drop sep.length)
      else
        match pySplitAux sep fuel rest with
        | [] => [[c]]
        | t :: ts => (c :: t) :: ts

/-- Python `s.split(sep)` for a non-empty separator. -/
def pySplit (sep s : String) : List String :=
  (pySplitAux sep.data s.data.length s.data).map (fun l => String.mk l)

/-- Python `"sep".join(parts)`. -/
def joinWith (sep : String) : List String → String
  | [] => ""
  | [s] => s
  | s :: rest => s ++ sep ++ joinWith sep rest

/-- Python `s.startswith(prefix)`. -/
def pyStartsWith (pre s : String) : Bool :=
  pre.data.isPrefixOf s.data

/-- Python `s.endswith(suffix)`. -/
def pyEndsWith (suf s : String) : Bool :=
  suf.data.isSuffixOf s.data

/-- Python `s[n:]`. -/
def pyDrop (n : Nat) (s : String) : String :=
  String.mk (s.data.drop n)

/-- Python `s[:-n]` (for `0 < n ≤ len(s)`). -/
def pyDropRight (n : Nat) (s : String) : String :=
  String.mk (s.data.take (s.data.length - n))

/-- Python `s.replace(old, new)` for a non-empty `old`: equal to
`new.join(s.split(old))`. -/
def pyReplace (old new s : String) : String :=
  joinWith new (pySplit old s)

/-- A Python value as it may appear on the right-hand side of a lookup.
`datetime` carries the three strings the code can extract from a
`datetime.datetime` object: `iso` stands for `v.isoformat()`, `strv` for
`str(v)` (the isoformat with a space separator) and `rep` for `repr(v)`. -/
inductive PyVal where
  | bool (b : Bool)
  | str (s : String)
  | datetime (iso strv rep : String)
  | other (strv rep : String)
  deriving DecidableEq, Repr

/-- Python `str(value)` for a `PyVal`. -/
def pyStr : PyVal → String
  | .bool b => if b then "True" else "False"
  | .str s => s
  | .datetime _ strv _ => strv
  | .other strv _ => strv

/-- Python `repr(value)` for a `PyVal` (a simple string reprs as itself in
single quotes; used only when a whole list is stringified). -/
def pyRepr : PyVal → String
  | .bool b => if b then "True" else "False"
  | .str s => "'" ++ s ++ "'"
  | .datetime _ _ rep => rep
  | .other _ rep => rep

/-- The value slot of a keyword lookup: either a scalar or a Python list
(the latter is what an `in` lookup is given). -/
inductive LookupVal where
  | scalar (v : PyVal)
  | vlist (vs : List PyVal)
  deriving DecidableEq, Repr

/-- Python `str` of a list value, `"[" ++ repr-items ++ "]"`. -/
def pyStrOfList (vs : List PyVal) : String :=
  "[" ++ joinWith ", " (vs.map pyRepr) ++ "]"

/-- `str(value)` for a `LookupVal`. -/
def lookupValStr : LookupVal → String
  | .scalar v => pyStr v
  | .vlist vs => pyStrOfList vs

/-- A Python exception raised by the query builder. -/
inductive PyError where
  | valueError (msg : String)
  | typeError (msg : String)
  deriving DecidableEq, Repr

/-- `Q._OPERATORS`. -/
def OPERATORS : List String := ["eq", "ne", "gt", "ge", "lt", "le", "in"]

/-- `Q._DEFAULT_OPERATOR`. -/
def DEFAULT_OPERATOR : String := "eq"

/-- `Q._ANNOTATIONS`. -/
def ANNOTATIONS : List String := ["guid", "datetime"]

/-- `Q._ARG_ERROR_MSG`, already formatted (the argument stands for
`type(arg)`). -/
def ARG_ERROR_MSG (t : String) : String :=
  "The positional argument must be a Q object. Received " ++ t ++ "."

/-- The message of the `ValueError` raised by `Q.__init__` on empty
construction. -/
def NO_ARGS_MSG : String := "No arguments provided to Q object."

/-- `type_repr` application together with the `str(value)` fallback of
`Q._format_value`: `bool` renders as the lowercase literal, `str` is
single-quoted, `datetime` renders as `datetime'<isoformat>'`, and a type
outside the table falls back to `str(value)`. -/
def typeReprOrStr : PyVal → String
  | .bool b => if b then "true" else "false"
  | .str s => "'" ++ s ++ "'"
  | .datetime iso _ _ => "datetime'" ++ iso ++ "'"
  | .other strv _ => strv

/-- `Q._format_value(value, annotation)`.  The Python guard is
`if annotation and annotation in self._ANNOTATIONS`: the annotation must
be present, truthy (non-empty) and a member of `_ANNOTATIONS`. -/
def formatValue (value : PyVal) (ann : Option String) : String :=
  match ann with
  | some a =>
      if a ≠ "" ∧ a ∈ ANNOTATIONS then a ++ "'" ++ pyStr value ++ "'"
      else typeReprOrStr value
  | none => typeReprOrStr value

/-- `Q._format_value` on the value slot of a lookup (a Python list that
reaches `_format_value` is not in `type_repr`, so it is stringified). -/
def formatLookupVal (value : LookupVal) (ann : Option String) : String :=
  match value with
  | .scalar v => formatValue v ann
  | .vlist vs =>
      match ann with
      | some a =>
          if a ≠ "" ∧ a ∈ ANNOTATIONS then a ++ "'" ++ pyStrOfList vs ++ "'"
          else pyStrOfList vs
      | none => pyStrOfList vs

/-- `Q._in_lookup(field, values, annotation)`: each value becomes
`<field> eq <formatted>` and the clauses are joined with `" or "`. -/
def inLookup (field : String) (values : List PyVal) (ann : Option String) : String :=
  joinWith " or "
    (values.map (fun value => field ++ " eq " ++ formatValue value ann))

/-- `Q.AND`. -/
def AND : String := "and"

/-- `Q.OR`. -/
def OR : String := "or"

/-- `Q.NOT`. -/
def NOT : String := "not"

/-- Python iteration over the value of an `in` lookup: a list yields its
elements, a string yields its characters as one-character strings, and any
other scalar raises `TypeError` (the Python message names the concrete
type; the embedding keeps a generic text, no claim depends on it). -/
def iterateVal : LookupVal → Except PyError (List PyVal)
  | .vlist vs => .ok vs
  | .scalar (.str s) => .ok (s.data.map (fun c => .str (String.mk [c])))
  | .scalar _ => .error (.typeError "object is not iterable")

/-- `Q._build_lookup(lookup, field_mapping)`: splits the key on `"__"`
into `field[__operator[__annotation]]`, substitutes the field through
`field_mapping` when present, raises `ValueError` for an operator outside
`_OPERATORS`, dispatches `in` to `_in_lookup`, and otherwise renders
`"<field> <operator> <value>"`. -/
def buildLookup (lookup : String × LookupVal)
    (fieldMapping : List (String × String)) : Except PyError String :=
  let key := lookup.1
  let value := lookup.2
  let parts := pySplit "__" key
  let field0 := parts.headD ""
  let operator := parts.getD 1 DEFAULT_OPERATOR
  let ann := if parts.length > 2 then some (parts.getD 2 "") else none
  let field :=
    match fieldMapping.lookup field0 with
    | some mapped => mapped
    | none => field0
  if operator ∉ OPERATORS then
    .error (.valueError
      ("Unsupported operator '" ++ operator ++ "' in lookup '" ++ key ++ "'."))
  else if operator = "in" then
    match iterateVal value with
    | .ok vs => .ok (inLookup field vs ann)
    | .error e => .error e
  else
    .ok (field ++ " " ++ operator ++ " " ++ formatLookupVal value ann)

mutual
/-- The state of a `Q` object: `children`, `connector`, `negated`. -/
inductive QNode where
  | mk (children : List QChild) (connector : String) (negated : Bool)

/-- One element of `Q.children`: either a raw `(key, value)` lookup pair
or a nested `Q` object. -/
inductive QChild where
  | lookup (key : String) (value : LookupVal)
  | node (q : QNode)
end

/-- `self.children`. -/
def QNode.children : QNode → List QChild
  | .mk c _ _ => c

/-- `self.connector`. -/
def QNode.connector : QNode → String
  | .mk _ c _ => c

/-- `self.negated`. -/
def QNode.negated : QNode → Bool
  | .mk _ _ n => n

/-- `Q.create(children, connector, negated)`.  The first statement of the
factory is `obj = cls()`, which invokes `Q.__init__` with no positional
and no keyword arguments; `__init__` raises
`ValueError("No arguments provided to Q object.")` before any field is
assigned, so `create` always raises and its parameters are never used. -/
def qCreate (children : List QChild) (connector : String) (negated : Bool) :
    Except PyError QNode :=
  let _ := children
  let _ := connector
  let _ := negated
  .error (.valueError NO_ARGS_MSG)

/-- `Q.__init__(*args, **kwargs)` (`args` are already `Q` objects, so the
`isinstance` `TypeError` branch is unrepresentable here): raises
`ValueError` on empty construction, turns each keyword item into either a
raw lookup child or — when its operator is `in` — the result of
`create([(key, value)], connector=OR)`, then appends the positional
nodes.  The connector is `AND` and `negated` is `False`. -/
def qInit (args : List QNode) (kwargs : List (String × LookupVal)) :
    Except PyError QNode :=
  if args.isEmpty ∧ kwargs.isEmpty then .error (.valueError NO_ARGS_MSG)
  else do
    let kwChildren ← kwargs.mapM (fun kv => do
      let parts := pySplit "__" kv.1
      let operator := parts.getD 1 DEFAULT_OPERATOR
      if operator = "in" then
        let sub ← qCreate [QChild.lookup kv.1 kv.2] OR false
        pure (QChild.node sub)
      else
        pure (QChild.lookup kv.1 kv.2))
    pure (QNode.mk (kwChildren ++ args.map QChild.node) AND false)

/-- `Q.copy()`: delegates to `create` with the current fields. -/
def qCopy (q : QNode) : Except PyError QNode :=
  qCreate q.children q.connector q.negated

/-- `Q.combine(other, connector)` (with a `Q`-typed `other`, so the
`isinstance` check passes): `obj = self.create(connector=connector)`,
then `obj.children = [self, other]`. -/
def qCombine (q other : QNode) (connector : String) : Except PyError QNode := do
  let obj ← qCreate [] connector false
  pure (QNode.mk [QChild.node q, QChild.node other] obj.connector obj.negated)

/-- `Q.__and__`. -/
def qAnd (q other : QNode) : Except PyError QNode :=
  qCombine q other AND

/-- `Q.__or__`. -/
def qOr (q other : QNode) : Except PyError QNode :=
  qCombine q other OR

/-- `Q.__invert__()`: `obj = self.copy(); obj.negated = not self.negated`. -/
def qInvert (q : QNode) : Except PyError QNode := do
  let obj ← qCopy q
  pure (QNode.mk obj.children obj.connector (!q.negated))

mutual
/-- `Q.build_expression(field_mapping)`: renders every child, joins the
rendered strings with `" <connector> "`, and wraps the whole string in
`not (...)` when the node itself is negated. -/
def buildExpression (q : QNode) (fieldMapping : List (String × String)) :
    Except PyError String :=
  match q with
  | .mk children connector negated => do
    let expressions ← buildChildExprs children fieldMapping
    let expression := joinWith (" " ++ connector ++ " ") expressions
    pure (if negated then NOT ++ " (" ++ expression ++ ")" else expression)

/-- The child loop of `Q.build_expression`: a nested `Q` child is rendered
recursively and additionally wrapped in `not (...)` when that child is
negated (the code then wraps once more inside the recursive call, a
faithful quirk); a lookup pair goes through `_build_lookup`. -/
def buildChildExprs (children : List QChild)
    (fieldMapping : List (String × String)) : Except PyError (List String) :=
  match children with
  | [] => pure []
  | child :: rest => do
    let expr ←
      match child with
      | .node sub => do
          let e ← buildExpression sub fieldMapping
          pure (if sub.negated then NOT ++ " (" ++ e ++ ")" else e)
      | .lookup key value => buildLookup (key, value) fieldMapping
    let exprs ← buildChildExprs rest fieldMapping
    pure (expr :: exprs)
end

/-! ## Metadata catalog (`OData1C/odata/metadata_manager.py`) -/

/-- `MAX_RECURSION_DEPTH`. -/
def MAX_RECURSION_DEPTH : Nat := 5

/-- The property table `_entity_type_properties`: entity-type name to its
ordered `(Name, Type)` property pairs (the Python dict, in insertion
order, with string keys, so an association list is an exact model). -/
abbrev PropTable := List (String × List (String × String))

/-- One entry of the list returned by `_expand_properties`: either an
original `{"name", "type"}` property dictionary, or the synthetic
`{"name": "<n> (expanded)", "type": "Collection", "depth": d,
"properties": ...}` dictionary attached after a collection property. -/
inductive ExpandedProp where
  | plain (name type_ : String)
  | expanded (name : String) (depth : Nat) (properties : List ExpandedProp)
  deriving Repr

/-- `MetadataManager._get_related_type(type_str)`: strips a
`Collection(...)` wrapper, takes the part after the last `.`, and drops
every `_RowType` occurrence. -/
def getRelatedType (typeStr : String) : Option String :=
  if pyStartsWith "Collection(" typeStr ∧ pyEndsWith ")" typeStr then
    let content := pyDropRight 1 (pyDrop "Collection(".data.length typeStr)
    let related := (pySplit "." content).getLastD ""
    some (pyReplace "_RowType" "" related)
  else
    none

/-- The property loop of `_expand_properties` at one entity, with the
recursive call on a referenced entity type abstracted as `subExpand`
(defunctionalised so the recursion below is structural in its fuel):
every property is kept; after a property whose type refers (via
`_get_related_type`) to a known entity type, the synthetic expanded
entry (tagged with depth `depth + 1`) is inserted, its `properties`
computed by `subExpand` with the shared visited set, which the loop
threads from one iteration to the next exactly as the single mutable
Python set does. -/
def expandPropsWith (tbl : PropTable) (depth : Nat)
    (subExpand : String → List String → List ExpandedProp × List String) :
    List (String × String) → List String → List ExpandedProp × List String
  | [], visited => ([], visited)
  | (name, type_) :: rest, visited =>
    match getRelatedType type_ with
    | some related =>
      if related ≠ "" ∧ (tbl.lookup related).isSome then
        let sub := subExpand related visited
        let tail := expandPropsWith tbl depth subExpand rest sub.2
        (ExpandedProp.plain name type_ ::
          ExpandedProp.expanded (name ++ " (expanded)") (depth + 1) sub.1 ::
          tail.1, tail.2)
      else
        let tail := expandPropsWith tbl depth subExpand rest visited
        (ExpandedProp.plain name type_ :: tail.1, tail.2)
    | none =>
      let tail := expandPropsWith tbl depth subExpand rest visited
      (ExpandedProp.plain name type_ :: tail.1, tail.2)

/-- `MetadataManager._expand_properties(entity_type, depth, visited)`.
The Python `visited` argument is one shared mutable set, so it is
threaded through and returned.  The recursion is driven by an explicit
`fuel` argument to make it structural — `expandEntity_fuel_irrelevant`
below shows the result is independent of the fuel once
`fuel ≥ MAX_RECURSION_DEPTH - depth`, so the fuel never truncates the
Python recursion, which is the termination argument for the source. -/
def expandEntity (tbl : PropTable) : Nat → String → Nat → List String →
    List ExpandedProp × List String
  | 0, entityType, depth, visited =>
    if entityType ∈ visited ∨ depth > MAX_RECURSION_DEPTH then ([], visited)
    else
      expandPropsWith tbl depth (fun _ vis => ([], vis))
        ((tbl.lookup entityType).getD []) (entityType :: visited)
  | fuel + 1, entityType, depth, visited =>
    if entityType ∈ visited ∨ depth > MAX_RECURSION_DEPTH then ([], visited)
    else
      expandPropsWith tbl depth
        (fun related vis => expandEntity tbl fuel related (depth + 1) vis)
        ((tbl.lookup entityType).getD []) (entityType :: visited)

/-- `_expand_properties(entity_type)` as called from `get_properties`:
depth `0`, fresh visited set.  The starting fuel `MAX_RECURSION_DEPTH + 1`
is more than the `MAX_RECURSION_DEPTH - 0` the fuel-irrelevance lemma
requires, so it never truncates. -/
def expandProperties (tbl : PropTable) (entityType : String) :
    List ExpandedProp :=
  (expandEntity tbl (MAX_RECURSION_DEPTH + 1) entityType 0 []).1

/-- An error raised during `_load_and_parse_metadata`: a transport-level
connection failure (raised inside `Connection.send_request`), the
`ODataResponseError` raised by `_check_response` on a non-200 status, or
an XML parse failure from `ET.fromstring`. -/
inductive FetchError where
  | connectionError (msg : String)
  | responseError (statusCode : Nat) (reason details : String)
  | parseError (msg : String)
  deriving DecidableEq, Repr

/-- The result of one successful fetch-and-parse round trip
(`_fetch_metadata_xml` followed by `ET.fromstring` and
`_parse_metadata_tree`): the three structures `_parse_metadata_tree`
returns.  The transport and the XML parser are external collaborators,
so one round trip is modelled by an oracle `Except FetchError Parsed`. -/
structure Parsed where
  entitySets : List String
  entityTypes : List String
  entityTypeProperties : PropTable
  deriving DecidableEq, Repr

/-- The mutable state of a `MetadataManager`. -/
structure MMState where
  isMetadataLoaded : Bool
  entitySets : List String
  entityTypes : List String
  entityTypeProperties : PropTable
  deriving DecidableEq, Repr

/-- `MetadataManager.__init__`: the loaded flag is false and the three
cached structures are empty. -/
def initState : MMState :=
  { isMetadataLoaded := false
    entitySets := []
    entityTypes := []
    entityTypeProperties := [] }

/-- `MetadataManager._load_and_parse_metadata()` with `server` the
outcome of the fetch-and-parse.  On failure the exception propagates
before any assignment, so the state is returned unchanged; on success the
three structures are replaced wholesale and only then is
`_is_metadata_loaded` set. -/
def loadAndParseMetadata (server : Except FetchError Parsed) (s : MMState) :
    MMState × Option FetchError :=
  match server with
  | .error e => (s, some e)
  | .ok parsed =>
      ({ isMetadataLoaded := true
         entitySets := parsed.entitySets
         entityTypes := parsed.entityTypes
         entityTypeProperties := parsed.entityTypeProperties }, none)

/-- `MetadataManager._ensure_metadata_loaded()`.  The third component
counts how many times `_fetch_metadata_xml` was invoked. -/
def ensureMetadataLoaded (server : Except FetchError Parsed) (s : MMState) :
    MMState × Option FetchError × Nat :=
  if s.isMetadataLoaded then (s, none, 0)
  else
    let r := loadAndParseMetadata server s
    (r.1, r.2, 1)

/-- `MetadataManager.reset_metadata()`: clears the flag and the three
cached structures together. -/
def resetMetadata (s : MMState) : MMState :=
  let _ := s
  { isMetadataLoaded := false
    entitySets := []
    entityTypes := []
    entityTypeProperties := [] }

/-- `MetadataManager.get_entity_sets()`: result (or propagated error),
state after the call, and number of fetches performed. -/
def getEntitySets (server : Except FetchError Parsed) (s : MMState) :
    Except FetchError (List String) × MMState × Nat :=
  let r := ensureMetadataLoaded server s
  (match r.2.1 with
   | some e => .error e
   | none => .ok r.1.entitySets, r.1, r.2.2)

/-- `MetadataManager.get_entity_types()`. -/
def getEntityTypes (server : Except FetchError Parsed) (s : MMState) :
    Except FetchError (List String) × MMState × Nat :=
  let r := ensureMetadataLoaded server s
  (match r.2.1 with
   | some e => .error e
   | none => .ok r.1.entityTypes, r.1, r.2.2)

/-- `MetadataManager.get_properties(entity_type)`. -/
def getProperties (server : Except FetchError Parsed) (s : MMState)
    (entityType : String) :
    Except FetchError (List ExpandedProp) × MMState × Nat :=
  let r := ensureMetadataLoaded server s
  (match r.2.1 with
   | some e => .error e
   | none => .ok (expandProperties r.1.entityTypeProperties entityType),
   r.1, r.2.2)

/-! ## Theorems about the expression builder -/

/-- C1: every call to `Q.create` — including those made internally by
`combine` (
`&`, `|`), `__invert__`, `copy`, and by the constructor for an `in`
keyword lookup — raises
`ValueError("No arguments provided to Q object.")`, because `create`
instantiates the class with no arguments and the constructor rejects
empty construction. -/
theorem create_always_raises :
    (∀ (children : List QChild) (connector : String) (negated : Bool),
      qCreate children connector negated = .error (.valueError NO_ARGS_MSG))
    ∧ (∀ a b : QNode,
        qAnd a b = .error (.valueError NO_ARGS_MSG)
        ∧ qOr a b = .error (.valueError NO_ARGS_MSG))
    ∧ (∀ q : QNode,
        qInvert q = .error (.valueError NO_ARGS_MSG)
        ∧ qCopy q = .error (.valueError NO_ARGS_MSG))
    ∧ (∀ value : LookupVal,
        qInit [] [("code__in", value)] = .error (.valueError NO_ARGS_MSG)) :=
  ⟨fun _ _ _ => rfl, fun _ _ => ⟨rfl, rfl⟩, fun _ => ⟨rfl, rfl⟩, fun _ => rfl⟩

/-- C2: the claim says `Q(code__in=['ABC', 'XYZ'])` eagerly wraps the
lookup in an `OR` sub-node and renders to the OR-join of `eq` clauses;
on the code, the constructor delegates that wrapping to `Q.create`,
which always raises `ValueError`, so the construction itself fails.
Only the render-time half survives: `_in_lookup` does produce the
OR-join in list order. -/
theorem in_construction_raises :
    qInit [] [("code__in", .vlist [.str "ABC", .str "XYZ"])]
      = .error (.valueError NO_ARGS_MSG)
    ∧ inLookup "code" [.str "ABC", .str "XYZ"] none
        = "code eq 'ABC' or code eq 'XYZ'"
    ∧ inLookup "field" [.other "a" "a", .other "b" "b", .other "c" "c"] none
        = "field eq a or field eq b or field eq c" :=
  ⟨rfl, rfl, rfl⟩

/-- C3: the claim says `c = a & b` produces a new node with children
`a` and `b` without mutating the operands; on the code, `combine` calls
`Q.create`, which raises `ValueError` before the children are ever
assigned.  Shown at the concrete operands `Q(name='Ivanov')` and
`Q(age__gt=30)`, which themselves construct fine and render as before,
while every combination of them raises. -/
theorem combine_raises :
    qInit [] [("name", .scalar (.str "Ivanov"))]
      = .ok (QNode.mk [.lookup "name" (.scalar (.str "Ivanov"))] AND false)
    ∧ qInit [] [("age__gt", .scalar (.other "30" "30"))]
        = .ok (QNode.mk [.lookup "age__gt" (.scalar (.other "30" "30"))] AND false)
    ∧ (∀ connector : String,
        qCombine (QNode.mk [.lookup "name" (.scalar (.str "Ivanov"))] AND false)
          (QNode.mk [.lookup "age__gt" (.scalar (.other "30" "30"))] AND false)
          connector
          = .error (.valueError NO_ARGS_MSG))
    ∧ buildExpression
        (QNode.mk [.lookup "name" (.scalar (.str "Ivanov"))] AND false) []
        = .ok "name eq 'Ivanov'"
    ∧ buildExpression
        (QNode.mk [.lookup "age__gt" (.scalar (.other "30" "30"))] AND false) []
        = .ok "age gt 30" :=
  ⟨rfl, rfl, fun _ => rfl, rfl, rfl⟩

/-- C4: the claim says `~q` returns a copy with only `negated` toggled
and that double negation cancels; on the code, `__invert__` calls
`copy`, which calls `Q.create`, which raises `ValueError`, so `~q`
never returns a node.  Shown at the concrete operand `Q(name='Ivanov')`
(well constructed, renders fine), whose negation raises. -/
theorem negate_raises :
    qInit [] [("name", .scalar (.str "Ivanov"))]
      = .ok (QNode.mk [.lookup "name" (.scalar (.str "Ivanov"))] AND false)
    ∧ qInvert (QNode.mk [.lookup "name" (.scalar (.str "Ivanov"))] AND false)
        = .error (.valueError NO_ARGS_MSG)
    ∧ qCopy (QNode.mk [.lookup "name" (.scalar (.str "Ivanov"))] AND false)
        = .error (.valueError NO_ARGS_MSG) :=
  ⟨rfl, rfl, rfl⟩

/-- C5 counterexample: a `datetime`-typed value whose lookup carries no
annotation is neither a boolean, nor a string, nor annotated, so the
claim puts it under "default string conversion" (`str(value)`, the
isoformat with a space separator); the code instead renders it through
`type_repr` as `datetime'<isoformat>'`. -/
theorem formatValue_datetime_counterexample :
    formatValue
      (.datetime "2024-12-07T10:00:00" "2024-12-07 10:00:00"
        "datetime.datetime(2024, 12, 7, 10, 0)") none
      = "datetime'2024-12-07T10:00:00'"
    ∧ pyStr
        (.datetime "2024-12-07T10:00:00" "2024-12-07 10:00:00"
          "datetime.datetime(2024, 12, 7, 10, 0)")
        = "2024-12-07 10:00:00"
    ∧ ("datetime'2024-12-07T10:00:00'" : String) ≠ "2024-12-07 10:00:00" :=
  ⟨rfl, rfl, by decide⟩

/-- C5 (amended): a value whose lookup carries a `guid`/`datetime`
annotation renders as `annotation'<str(value)>'`, the wrapper taking
precedence over the type rules; without such an annotation a boolean
renders as the lowercase literal, a string renders single-quoted, a
`datetime`-typed value renders as `datetime'<isoformat>'`, and any
other type renders via default string conversion. -/
theorem formatValue_spec (v : PyVal) (a : Option String) :
    (∀ s, a = some s → s ∈ ANNOTATIONS →
      formatValue v a = s ++ "'" ++ pyStr v ++ "'")
    ∧ ((∀ s, a = some s → s ∉ ANNOTATIONS) →
        ((∀ b, v = .bool b →
            formatValue v a = if b then "true" else "false")
         ∧ (∀ s, v = .str s → formatValue v a = "'" ++ s ++ "'")
         ∧ (∀ iso strv rep, v = .datetime iso strv rep →
             formatValue v a = "datetime'" ++ iso ++ "'")
         ∧ (∀ strv rep, v = .other strv rep → formatValue v a = strv))) := by
  constructor
  · intro s hs hmem
    subst hs
    have hcases : s = "guid" ∨ s = "datetime" := by
      simpa [ANNOTATIONS] using hmem
    rcases hcases with h | h <;> subst h <;> simp [formatValue, ANNOTATIONS]
  · intro hno
    have hfall : formatValue v a = typeReprOrStr v := by
      cases a with
      | none => rfl
      | some s =>
        have : s ∉ ANNOTATIONS := hno s rfl
        simp [formatValue, this]
    refine ⟨?_, ?_, ?_, ?_⟩
    · intro b hb; subst hb; simpa [typeReprOrStr] using hfall
    · intro s hs; subst hs; simpa [typeReprOrStr] using hfall
    · intro iso strv rep h; subst h; simpa [typeReprOrStr] using hfall
    · intro strv rep h; subst h; simpa [typeReprOrStr] using hfall

/-- C5 witness: the amended theorem applied at a `guid`-annotated
boolean and at an unannotated boolean. -/
theorem formatValue_spec_witness :
    formatValue (.bool true) (some "guid") = "guid'True'"
    ∧ formatValue (.bool true) none = "true" :=
  ⟨(formatValue_spec (.bool true) (some "guid")).1 "guid" rfl (by decide),
   (formatValue_spec (.bool true) none).2
     (fun s h => by cases h) |>.1 true rfl⟩

/-- C6 counterexample: a well-formed `in` lookup does not render to the
shape `"<field> in <value>"` the claim asserts for every operator of the
supported set; it renders to an `eq` OR-join (here at the one-element
list `[a]`, the single clause `f eq 'a'`, which does not begin with
`f in`). -/
theorem buildLookup_in_counterexample :
    buildLookup ("f__in", .vlist [.str "a"]) [] = .ok "f eq 'a'"
    ∧ pyStartsWith "f in" "f eq 'a'" = false :=
  ⟨rfl, rfl⟩

/-- C6 (amended): a keyword lookup whose operator is one of `eq`, `ne`,
`gt`, `ge`, `lt`, `le` renders as `"<field> <op> <value>"`; the `in`
operator renders as the OR-join of `eq` clauses; an operator outside
the supported set is accepted at construction time and raises
`ValueError` naming the offending operator at render time. -/
theorem buildLookup_spec (field op : String) (v : PyVal) :
    pySplit "__" (field ++ "__" ++ op) = [field, op] →
    ((op ∈ ["eq", "ne", "gt", "ge", "lt", "le"] →
       buildLookup (field ++ "__" ++ op, .scalar v) []
         = .ok (field ++ " " ++ op ++ " " ++ formatValue v none))
     ∧ (∀ vs : List PyVal, op = "in" →
         buildLookup (field ++ "__" ++ op, .vlist vs) []
           = .ok (inLookup field vs none))
     ∧ (op ∉ OPERATORS →
         buildLookup (field ++ "__" ++ op, .scalar v) []
           = .error (.valueError ("Unsupported operator '" ++ op
               ++ "' in lookup '" ++ (field ++ "__" ++ op) ++ "'."))
         ∧ qInit [] [(field ++ "__" ++ op, .scalar v)]
             = .ok (QNode.mk
                 [.lookup (field ++ "__" ++ op) (.scalar v)] AND false))) := by
  intro hsplit
  refine ⟨?_, ?_, ?_⟩
  · intro hmem
    have hcases : op = "eq" ∨ op = "ne" ∨ op = "gt" ∨ op = "ge" ∨ op = "lt"
        ∨ op = "le" := by
      simpa using hmem
    have hin : op ∈ OPERATORS := by
      rcases hcases with h | h | h | h | h | h <;> subst h <;> decide
    have hne : op ≠ "in" := by
      rcases hcases with h | h | h | h | h | h <;> subst h <;> decide
    simp [buildLookup, hsplit, hin, hne, formatLookupVal]
  · intro vs hop
    subst hop
    simp [buildLookup, hsplit, OPERATORS, iterateVal]
  · intro hnot
    have hne : op ≠ "in" := by
      intro h; exact hnot (by simp [OPERATORS, h])
    refine ⟨by simp [buildLookup, hsplit, hnot], ?_⟩
    have hop : [field, op].getD 1 DEFAULT_OPERATOR = op := rfl
    simp [qInit, List.mapM, List.mapM.loop, hsplit, hop, hne]
    rfl

/-! ## Theorems about the metadata catalog -/

/-- Two pointwise-equal sub-expansion functions give `expandPropsWith`
the same value: the congruence used to relate runs at different fuels. -/
lemma expandPropsWith_congr (tbl : PropTable) (depth : Nat)
    (f g : String → List String → List ExpandedProp × List String)
    (h : ∀ r v, f r v = g r v) :
    ∀ props visited,
      expandPropsWith tbl depth f props visited
        = expandPropsWith tbl depth g props visited := by
  intro props
  induction props with
  | nil => intro visited; rfl
  | cons p rest ih =>
    intro visited
    obtain ⟨name, ty⟩ := p
    simp only [expandPropsWith, h, ih]

/-- One extra unit of fuel does not change `expandEntity` once the fuel
covers the remaining depth budget `MAX_RECURSION_DEPTH - depth`. -/
lemma expandEntity_fuel_succ (tbl : PropTable) :
    ∀ (fuel : Nat) (et : String) (depth : Nat) (visited : List String),
      MAX_RECURSION_DEPTH - depth ≤ fuel →
      expandEntity tbl (fuel + 1) et depth visited
        = expandEntity tbl fuel et depth visited := by
  intro fuel
  induction fuel with
  | zero =>
    intro et depth visited h
    have hd : MAX_RECURSION_DEPTH ≤ depth := by omega
    by_cases hg : et ∈ visited ∨ depth > MAX_RECURSION_DEPTH
    · simp [expandEntity, hg]
    · simp only [expandEntity, hg, if_false]
      apply expandPropsWith_congr
      intro r v
      have hgt : depth + 1 > MAX_RECURSION_DEPTH := by omega
      simp [expandEntity, hgt]
  | succ f ih =>
    intro et depth visited h
    by_cases hg : et ∈ visited ∨ depth > MAX_RECURSION_DEPTH
    · simp [expandEntity, hg]
    · simp only [expandEntity, hg, if_false]
      apply expandPropsWith_congr
      intro r v
      exact ih r (depth + 1) v (by omega)

/-- Any amount of extra fuel beyond the remaining depth budget is
irrelevant to `expandEntity`. -/
lemma expandEntity_fuel_add (tbl : PropTable) (et : String) (depth : Nat)
    (visited : List String) (fuel k : Nat)
    (h : MAX_RECURSION_DEPTH - depth ≤ fuel) :
    expandEntity tbl (fuel + k) et depth visited
      = expandEntity tbl fuel et depth visited := by
  induction k with
  | zero => rfl
  | succ n ih =>
    have hs := expandEntity_fuel_succ tbl (fuel + n) et depth visited (by omega)
    calc expandEntity tbl (fuel + (n + 1)) et depth visited
        = expandEntity tbl ((fuel + n) + 1) et depth visited := by
          rw [Nat.add_assoc]
      _ = expandEntity tbl (fuel + n) et depth visited := hs
      _ = expandEntity tbl fuel et depth visited := ih

/-- C9: recursive property expansion is bounded: an entity type already
in the visited set yields an empty expansion at once; any call beyond
the maximum depth (the constant 5) yields an empty expansion regardless
of the visited set; the result is independent of the structural fuel as
soon as the fuel covers the remaining depth budget (so the Python
recursion, which has no fuel, terminates with this very value); and on
the cyclic schema where `A` references `B` and `B` references `A` the
expansion returns the expected finite structure. -/
theorem expand_properties_bounded :
    (∀ (tbl : PropTable) (fuel : Nat) (et : String) (depth : Nat)
        (visited : List String), et ∈ visited →
      expandEntity tbl fuel et depth visited = ([], visited))
    ∧ (∀ (tbl : PropTable) (fuel : Nat) (et : String) (depth : Nat)
        (visited : List String), depth > MAX_RECURSION_DEPTH →
      expandEntity tbl fuel et depth visited = ([], visited))
    ∧ (∀ (tbl : PropTable) (et : String) (depth : Nat)
        (visited : List String) (fuel₁ fuel₂ : Nat),
        MAX_RECURSION_DEPTH - depth ≤ fuel₁ →
        MAX_RECURSION_DEPTH - depth ≤ fuel₂ →
      expandEntity tbl fuel₁ et depth visited
        = expandEntity tbl fuel₂ et depth visited)
    ∧ expandProperties
        [("A", [("b", "Collection(NS.B_RowType)")]),
         ("B", [("a", "Collection(NS.A_RowType)")])] "A"
      = [.plain "b" "Collection(NS.B_RowType)",
         .expanded "b (expanded)" 1
           [.plain "a" "Collection(NS.A_RowType)",
            .expanded "a (expanded)" 2 []]] := by
  refine ⟨?_, ?_, ?_, rfl⟩
  · intro tbl fuel et depth visited h
    cases fuel <;> simp [expandEntity, h]
  · intro tbl fuel et depth visited h
    cases fuel <;> simp [expandEntity, h]
  · intro tbl et depth visited fuel₁ fuel₂ h₁ h₂
    have e₁ : expandEntity tbl fuel₁ et depth visited
        = expandEntity tbl (MAX_RECURSION_DEPTH - depth) et depth visited := by
      have := expandEntity_fuel_add tbl et depth visited
        (MAX_RECURSION_DEPTH - depth) (fuel₁ - (MAX_RECURSION_DEPTH - depth))
        (Nat.le_refl _)
      rwa [show MAX_RECURSION_DEPTH - depth
          + (fuel₁ - (MAX_RECURSION_DEPTH - depth)) = fuel₁ by omega] at this
    have e₂ : expandEntity tbl fuel₂ et depth visited
        = expandEntity tbl (MAX_RECURSION_DEPTH - depth) et depth visited := by
      have := expandEntity_fuel_add tbl et depth visited
        (MAX_RECURSION_DEPTH - depth) (fuel₂ - (MAX_RECURSION_DEPTH - depth))
        (Nat.le_refl _)
      rwa [show MAX_RECURSION_DEPTH - depth
          + (fuel₂ - (MAX_RECURSION_DEPTH - depth)) = fuel₂ by omega] at this
    rw [e₁, e₂]

/-- C9 witness: the bounds applied at concrete inputs — a visited
entity type, a call at depth 6, and two sufficient fuels on a one-entity
table. -/
theorem expand_properties_bounded_witness :
    expandEntity [] 3 "A" 0 ["A"] = ([], ["A"])
    ∧ expandEntity [] 3 "A" 6 [] = ([], [])
    ∧ expandEntity [("A", [("x", "Edm.String")])] 7 "A" 0 []
        = expandEntity [("A", [("x", "Edm.String")])] 9 "A" 0 [] :=
  ⟨expand_properties_bounded.1 [] 3 "A" 0 ["A"] (by decide),
   expand_properties_bounded.2.1 [] 3 "A" 6 [] (by decide),
   expand_properties_bounded.2.2.1 [("A", [("x", "Edm.String")])] "A" 0 [] 7 9
     (by decide) (by decide)⟩

/-- C7: the catalog is empty at construction; on a not-yet-loaded state
every accessor performs exactly one fetch and replaces the whole cached
state with the parsed result; on a loaded state every accessor performs
zero fetches and leaves the state unchanged; invalidation clears the
three cached structures and the loaded flag together (back to the
freshly constructed state); and the first accessor after invalidation
performs exactly one more fetch, fully replacing the cached state. -/
theorem metadata_lifecycle (server : Except FetchError Parsed) (p : Parsed)
    (s : MMState) (et : String) :
    (initState.isMetadataLoaded = false ∧ initState.entitySets = []
      ∧ initState.entityTypes = [] ∧ initState.entityTypeProperties = [])
    ∧ (s.isMetadataLoaded = false →
        getEntitySets (.ok p) s
          = (.ok p.entitySets,
             { isMetadataLoaded := true, entitySets := p.entitySets,
               entityTypes := p.entityTypes,
               entityTypeProperties := p.entityTypeProperties }, 1)
        ∧ getEntityTypes (.ok p) s
            = (.ok p.entityTypes,
               { isMetadataLoaded := true, entitySets := p.entitySets,
                 entityTypes := p.entityTypes,
                 entityTypeProperties := p.entityTypeProperties }, 1)
        ∧ getProperties (.ok p) s et
            = (.ok (expandProperties p.entityTypeProperties et),
               { isMetadataLoaded := true, entitySets := p.entitySets,
                 entityTypes := p.entityTypes,
                 entityTypeProperties := p.entityTypeProperties }, 1))
    ∧ (s.isMetadataLoaded = true →
        getEntitySets server s = (.ok s.entitySets, s, 0)
        ∧ getEntityTypes server s = (.ok s.entityTypes, s, 0)
        ∧ getProperties server s et
            = (.ok (expandProperties s.entityTypeProperties et), s, 0))
    ∧ resetMetadata s = initState
    ∧ getEntitySets (.ok p) (resetMetadata s)
        = (.ok p.entitySets,
           { isMetadataLoaded := true, entitySets := p.entitySets,
             entityTypes := p.entityTypes,
             entityTypeProperties := p.entityTypeProperties }, 1) := by
  refine ⟨⟨rfl, rfl, rfl, rfl⟩, ?_, ?_, rfl, ?_⟩
  · intro h
    refine ⟨?_, ?_, ?_⟩ <;>
      simp [getEntitySets, getEntityTypes, getProperties,
        ensureMetadataLoaded, loadAndParseMetadata, h]
  · intro h
    refine ⟨?_, ?_, ?_⟩ <;>
      simp [getEntitySets, getEntityTypes, getProperties,
        ensureMetadataLoaded, h]
  · simp [getEntitySets, ensureMetadataLoaded, loadAndParseMetadata,
      resetMetadata, initState]

/-- C7 witness: the lifecycle applied at the freshly constructed state
and a concrete parsed document. -/
theorem metadata_lifecycle_witness :
    getEntitySets
      (.ok ⟨["TestEntities"], ["TestEntity"],
        [("TestEntity", [("ID", "Edm.Int32"), ("Name", "Edm.String")])]⟩)
      initState
      = (.ok ["TestEntities"],
         { isMetadataLoaded := true, entitySets := ["TestEntities"],
           entityTypes := ["TestEntity"],
           entityTypeProperties :=
             [("TestEntity", [("ID", "Edm.Int32"), ("Name", "Edm.String")])] },
         1) :=
  ((metadata_lifecycle
      (.ok ⟨["TestEntities"], ["TestEntity"],
        [("TestEntity", [("ID", "Edm.Int32"), ("Name", "Edm.String")])]⟩)
      ⟨["TestEntities"], ["TestEntity"],
        [("TestEntity", [("ID", "Edm.Int32"), ("Name", "Edm.String")])]⟩
      initState "TestEntity").2.1 rfl).1

/-- C8: when the fetch (or parse) fails, the error propagates to the
caller from every accessor, the state — in particular the loaded flag,
which is only set after fetch and parse both succeed — is unchanged, and
the next accessor call performs one full retry (here shown succeeding
and fully replacing the cached state). -/
theorem fetch_failure_leaves_unloaded (e : FetchError) (s : MMState)
    (p : Parsed) (et : String) (h : s.isMetadataLoaded = false) :
    ensureMetadataLoaded (.error e) s = (s, some e, 1)
    ∧ getEntitySets (.error e) s = (.error e, s, 1)
    ∧ getEntityTypes (.error e) s = (.error e, s, 1)
    ∧ getProperties (.error e) s et = (.error e, s, 1)
    ∧ getEntitySets (.ok p) s
        = (.ok p.entitySets,
           { isMetadataLoaded := true, entitySets := p.entitySets,
             entityTypes := p.entityTypes,
             entityTypeProperties := p.entityTypeProperties }, 1) := by
  refine ⟨?_, ?_, ?_, ?_, ?_⟩ <;>
    simp [ensureMetadataLoaded, loadAndParseMetadata, getEntitySets,
      getEntityTypes, getProperties, h]

/-- C8 witness: the failure behaviour at a concrete connection error on
the freshly constructed state, followed by a successful retry. -/
theorem fetch_failure_witness :
    getEntitySets (.error (.connectionError "timed out")) initState
      = (.error (.connectionError "timed out"), initState, 1)
    ∧ getEntitySets (.ok ⟨["E"], [], []⟩) initState
        = (.ok ["E"],
           { isMetadataLoaded := true, entitySets := ["E"],
             entityTypes := [], entityTypeProperties := [] }, 1) :=
  ⟨(fetch_failure_leaves_unloaded (.connectionError "timed out") initState
      ⟨["E"], [], []⟩ "T" rfl).2.1,
   (fetch_failure_leaves_unloaded (.connectionError "timed out") initState
      ⟨["E"], [], []⟩ "T" rfl).2.2.2.2⟩

/-- C10: an entity type absent from the parsed property table expands to
the empty list, and `get_properties` on it returns the empty list
without an error — both on an already loaded catalog (zero fetches) and
through the lazy load on a fresh one (one fetch). -/
theorem get_properties_unknown (tbl : PropTable) (et : String) (p : Parsed)
    (s : MMState) (server : Except FetchError Parsed) :
    (tbl.lookup et = none → expandProperties tbl et = [])
    ∧ (s.isMetadataLoaded = true → s.entityTypeProperties.lookup et = none →
        getProperties server s et = (.ok [], s, 0))
    ∧ (s.isMetadataLoaded = false → p.entityTypeProperties.lookup et = none →
        getProperties (.ok p) s et
          = (.ok [],
             { isMetadataLoaded := true, entitySets := p.entitySets,
               entityTypes := p.entityTypes,
               entityTypeProperties := p.entityTypeProperties }, 1)) := by
  have hexp : ∀ tbl' : PropTable, tbl'.lookup et = none →
      expandProperties tbl' et = [] := by
    intro tbl' hnone
    simp [expandProperties, expandEntity, hnone, expandPropsWith]
  refine ⟨hexp tbl, ?_, ?_⟩
  · intro hload hnone
    simp [getProperties, ensureMetadataLoaded, hload, hexp _ hnone]
  · intro hload hnone
    simp [getProperties, ensureMetadataLoaded, loadAndParseMetadata, hload,
      hexp _ hnone]

/-- C10 witness: `get_properties("UnknownType")` on a loaded catalog
whose table only knows `TestEntity` returns the empty list with no
fetch. -/
theorem get_properties_unknown_witness :
    getProperties (.ok ⟨[], [], []⟩)
      { isMetadataLoaded := true, entitySets := ["TestEntities"],
        entityTypes := ["TestEntity"],
        entityTypeProperties := [("TestEntity", [("ID", "Edm.Int32")])] }
      "UnknownType"
      = (.ok [],
         { isMetadataLoaded := true, entitySets := ["TestEntities"],
           entityTypes := ["TestEntity"],
           entityTypeProperties := [("TestEntity", [("ID", "Edm.Int32")])] },
         0) :=
  (get_properties_unknown [("TestEntity", [("ID", "Edm.Int32")])] "UnknownType"
      ⟨[], [], []⟩
      { isMetadataLoaded := true, entitySets := ["TestEntities"],
        entityTypes := ["TestEntity"],
        entityTypeProperties := [("TestEntity", [("ID", "Edm.Int32")])] }
      (.ok ⟨[], [], []⟩)).2.1 rfl (by decide)

/-- C6 witness: the amended theorem applied at the lookups `name__eq`
(supported operator), `code__in` (the OR-join shape) and `f__foo`
(unsupported operator: constructs, then raises at render time). -/
theorem buildLookup_spec_witness :
    buildLookup ("name__eq", .scalar (.str "Ivanov")) [] = .ok "name eq 'Ivanov'"
    ∧ buildLookup ("code__in", .vlist [.str "ABC", .str "XYZ"]) []
        = .ok "code eq 'ABC' or code eq 'XYZ'"
    ∧ buildLookup ("f__foo", .scalar (.str "x")) []
        = .error (.valueError "Unsupported operator 'foo' in lookup 'f__foo'.")
    ∧ qInit [] [("f__foo", .scalar (.str "x"))]
        = .ok (QNode.mk [.lookup "f__foo" (.scalar (.str "x"))] AND false) := by
  refine ⟨?_, ?_, ?_, ?_⟩
  · exact (buildLookup_spec "name" "eq" (.str "Ivanov") (by decide)).1 (by decide)
  · exact (buildLookup_spec "code" "in" (.str "x") (by decide)).2.1
      [.str "ABC", .str "XYZ"] rfl
  · exact ((buildLookup_spec "f" "foo" (.str "x") (by decide)).2.2 (by decide)).1
  · exact ((buildLookup_spec "f" "foo" (.str "x") (by decide)).2.2 (by decide)).2

end OData
